import Mathlib

/-!
# A verification development for the diesel core (Loop / Connection / Client)

Shallow embedding of `src/diesel/core.py` and `src/diesel/client.py`.
Byte strings (Python 2 `str`) are modelled as `List Char`.  The `Buffer`
and `Pipeline` collaborators, and the hub / application wait-index, are
not part of the given sources; they are modelled from the specification
(each such definition says so in its doc comment).  Side effects on the
hub (register/unregister, enable/disable write, scheduling, socket
close, callback delivery, yielding to the scheduler) are made explicit
as event traces.
-/

namespace Diesel

/-- Byte strings (Python 2 `str`). -/
abbrev Bytes := List Char

/-- CR-LF, the `until_eol` sentinel (`CRLF = '\r\n'` in core.py). -/
def crlf : Bytes := ['\r', '\n']

/-- `BUFSIZ = 2 ** 14` in core.py. -/
def bufsiz : Nat := 2 ^ 14

/-- Is `p` a prefix of `s`? (decidable, executable). -/
def isPre : Bytes → Bytes → Bool
  | [], _ => true
  | _ :: _, [] => false
  | a :: p, b :: s => a == b && isPre p s

/-- Modelled from the spec: a Buffer term is "either a delimiter
byte-string, an integer byte count, or none". -/
inductive BufTerm where
  | delim (d : Bytes)
  | count (n : Nat)
  deriving DecidableEq, Repr

/-- Modelled from the spec: the Buffer is a receive-side byte
accumulator with at most one pending match term (`buffer.py` is not in
the given sources). -/
structure Buffer where
  data : Bytes
  term : Option BufTerm
  deriving DecidableEq, Repr

/-- Modelled from the spec: "delimiter match returns bytes up to and
including the delimiter ... Matching is greedy at the earliest
position."  Returns the matched chunk and the remainder. -/
def matchDelim (d : Bytes) : Bytes → Option (Bytes × Bytes)
  | [] => none
  | c :: rest =>
    if isPre d (c :: rest) then
      some (d, (c :: rest).drop d.length)
    else
      match matchDelim d rest with
      | some (pre, post) => some (c :: pre, post)
      | none => none

/-- Modelled from the spec: with the current term, return the match if
already satisfied (removing it from the buffer), else nothing.
"byte-count match returns exactly that many bytes". -/
def Buffer.check (b : Buffer) : Option Bytes × Buffer :=
  match b.term with
  | none => (none, b)
  | some (BufTerm.delim d) =>
    match matchDelim d b.data with
    | some (pre, post) => (some pre, { b with data := post })
    | none => (none, b)
  | some (BufTerm.count n) =>
    if b.data.length ≥ n then
      (some (b.data.take n), { b with data := b.data.drop n })
    else
      (none, b)

/-- Modelled from the spec: install a delimiter or byte count as the
pending term; "fails if a term is already active with a different
value". -/
def Buffer.set_term (t : BufTerm) (b : Buffer) : Except String Buffer :=
  match b.term with
  | some t' =>
    if t' = t then Except.ok { b with term := some t }
    else Except.error "ValueError: buffer term already set to a different value"
  | none => Except.ok { b with term := some t }

/-- Modelled from the spec: "clearing the term discards the match
requirement but keeps bytes". -/
def Buffer.clear_term (b : Buffer) : Buffer :=
  { b with term := none }

/-- Modelled from the spec: append bytes; if a term is active and now
satisfied, return the matched chunk (and remove it). -/
def Buffer.feed (bs : Bytes) (b : Buffer) : Option Bytes × Buffer :=
  Buffer.check { b with data := b.data ++ bs }

/-- Modelled from the spec: "return and clear all buffered bytes (used
at shutdown to surface trailing data)". -/
def Buffer.pop (b : Buffer) : Bytes × Buffer :=
  (b.data, { b with data := [] })

/-- Modelled from the spec: one Pipeline entry, a (priority, payload)
chunk; lower priority value means higher precedence, insertion order is
kept by the list itself. -/
structure PItem where
  prio : Nat
  payload : Bytes
  deriving DecidableEq, Repr

/-- Modelled from the spec: the Pipeline is a send-side priority queue
of byte chunks with a soft close-requested marker (`pipeline.py` is not
in the given sources).  `items` is kept sorted by priority, stable in
insertion order; the head is what `read` consumes first. -/
structure Pipeline where
  items : List PItem
  closeReq : Bool
  deriving DecidableEq, Repr

/-- Stable insert by priority: the new item goes after every item of
priority less than or equal to its own. -/
def insertItem (it : PItem) : List PItem → List PItem
  | [] => [it]
  | x :: xs => if x.prio ≤ it.prio then x :: insertItem it xs else it :: x :: xs

/-- Modelled from the spec: `add(payload, priority)` enqueues. -/
def Pipeline.add (payload : Bytes) (prio : Nat) (p : Pipeline) : Pipeline :=
  { p with items := insertItem ⟨prio, payload⟩ p.items }

/-- Modelled from the spec: `empty` is true iff no bytes remain. -/
def Pipeline.emptyB (p : Pipeline) : Bool :=
  p.items.all (fun it => it.payload.isEmpty)

/-- Take up to `n` bytes off the front of the item list, splitting the
front entry if needed. -/
def takeBytes (n : Nat) : List PItem → Bytes × List PItem
  | [] => ([], [])
  | it :: rest =>
    if n = 0 then ([], it :: rest)
    else if it.payload.length ≤ n then
      let r := takeBytes (n - it.payload.length) rest
      (it.payload ++ r.1, r.2)
    else
      (it.payload.take n, { it with payload := it.payload.drop n } :: rest)

/-- Modelled from the spec: `read(n)` dequeues up to `n` bytes
respecting priority then FIFO; "if read is invoked on an empty pipeline
with close-requested set, it signals a close-requested condition". -/
def Pipeline.read (n : Nat) (p : Pipeline) : Except Unit (Bytes × Pipeline) :=
  if p.emptyB && p.closeReq then
    Except.error ()
  else
    let r := takeBytes n p.items
    Except.ok (r.1, { p with items := r.2 })

/-- Modelled from the spec: `backup(bytes)` pushes bytes to the front at
the highest priority so the next read returns them first. -/
def Pipeline.backup (bs : Bytes) (p : Pipeline) : Pipeline :=
  { p with items := ⟨0, bs⟩ :: p.items }

/-- Modelled from the spec: `close_request()` sets the close flag. -/
def Pipeline.close_request (p : Pipeline) : Pipeline :=
  { p with closeReq := true }

/-- The exception kinds of core.py that the embedding distinguishes. -/
inductive ExcKind where
  | connectionClosed
  | clientConnectionError
  | clientConnectionTimeout
  | parentDied
  deriving DecidableEq, Repr

/-- A value delivered to a Connection's `waiting_callback`: either the
matched bytes, or a `ConnectionClosed` exception carrying the residual
buffered bytes. -/
inductive CVal where
  | bytes (b : Bytes)
  | closedExc (residual : Bytes)
  deriving DecidableEq, Repr

/-- Observable side effects of Connection / Loop operations on the hub,
the socket, callbacks and the scheduler. -/
inductive Ev where
  | hubRegister
  | hubUnregister
  | hubEnableWrite
  | hubDisableWrite
  | hubCallLater
  | sockClose
  | deliverCb (v : CVal)
  | scheduleWake (e : Option ExcKind)
  | yieldToHub
  deriving DecidableEq, Repr

/-- A Connection of core.py: non-blocking socket bound to a Buffer and a
Pipeline, registered with the hub; `waiting_callback` records whether a
callback is installed (delivery to it shows up as a `deliverCb`
event). -/
structure Connection where
  pipeline : Pipeline
  buffer : Buffer
  hubRegistered : Bool
  writable : Bool
  closed : Bool
  sockOpen : Bool
  waiting_callback : Bool
  deriving DecidableEq, Repr

/-- `Connection.set_writable` of core.py: toggles hub write interest,
ignored when closed. -/
def Connection.set_writable (val : Bool) (c : Connection) : Connection × List Ev :=
  if c.closed then (c, [])
  else if val && !c.writable then
    ({ c with writable := true }, [Ev.hubEnableWrite])
  else if !val && c.writable then
    ({ c with writable := false }, [Ev.hubDisableWrite])
  else (c, [])

/-- `Connection.close` of core.py: enable writable and request a soft
pipeline close. -/
def Connection.close (c : Connection) : Connection × List Ev :=
  let r := Connection.set_writable true c
  ({ r.1 with pipeline := r.1.pipeline.close_request }, r.2)

/-- `Connection.shutdown(remote_closed)` of core.py: unregister from the
hub, mark closed, close the socket; if `remote_closed` and a
`waiting_callback` is set, deliver a ConnectionClosed carrying the
popped residual buffer.  Note the source does NOT clear
`waiting_callback`. -/
def Connection.shutdown (remote_closed : Bool) (c : Connection) : Connection × List Ev :=
  let c1 : Connection :=
    { c with hubRegistered := false, closed := true, sockOpen := false }
  let base : List Ev := [Ev.hubUnregister, Ev.sockClose]
  if remote_closed && c1.waiting_callback then
    let r := c1.buffer.pop
    ({ c1 with buffer := r.2 }, base ++ [Ev.deliverCb (CVal.closedExc r.1)])
  else
    (c1, base)

/-- The Client of client.py: `connected` flag and optional Connection. -/
structure Client where
  connected : Bool
  conn : Option Connection
  deriving DecidableEq, Repr

/-- `Client.is_closed` of client.py: `not self.conn or self.conn.closed`. -/
def Client.is_closed (cl : Client) : Bool :=
  match cl.conn with
  | none => true
  | some c => c.closed

/-- `Client.close` of client.py: if not already closed, close the
Connection, set `conn = None` and set `connected = True` (sic: the
source assigns True, not False). -/
def Client.close (cl : Client) : Client × List Ev :=
  if cl.is_closed then (cl, [])
  else
    match cl.conn with
    | none => (cl, [])
    | some c =>
      let r := c.close
      ({ cl with conn := none, connected := true }, r.2)

/-- The guard of `call.__call__` in core.py: raise ConnectionClosed
("ClientNotConnected ...") when not connected, else raise
ConnectionClosed ("Client call failed ...") when `is_closed`; otherwise
the wrapped operation body runs. -/
inductive CallGuard where
  | notConnected
  | wasClosed
  | proceed
  deriving DecidableEq, Repr

/-- The connected / is_closed checks performed, in source order, by the
`call` decorator before pushing the connection on the loop's stack. -/
def callGuard (cl : Client) : CallGuard :=
  if !cl.connected then CallGuard.notConnected
  else if cl.is_closed then CallGuard.wasClosed
  else CallGuard.proceed

/-- Outcome of the non-blocking `sock.recv(BUFSIZ)` in
`Connection.handle_read`: received bytes (`ok []` is the empty read of a
remote close), a transient condition (EAGAIN / EINTR / TLS want-*,
handled by an early return), or an error the source maps to empty data
(other socket errors, TLS zero-return / syscall error, unknown). -/
inductive RecvRes where
  | ok (b : Bytes)
  | transient
  | errToEmpty
  deriving DecidableEq, Repr

/-- The tail of `Connection.handle_read` of core.py: a nonempty match
returned by `feed` is passed to `waiting_callback` unconditionally —
calling it while it is `None` is a Python TypeError, modelled as the
error case. -/
def deliverMatch (c1 : Connection) (o : Option Bytes) :
    Except String (Connection × List Ev) :=
  match o with
  | none => Except.ok (c1, [])
  | some res =>
    if res.isEmpty then Except.ok (c1, [])
    else if c1.waiting_callback then
      Except.ok (c1, [Ev.deliverCb (CVal.bytes res)])
    else
      Except.error "TypeError: waiting_callback is None"

/-- `Connection.handle_read` of core.py.  An empty read (or an error
mapped to empty data) triggers `shutdown(True)`; otherwise received
bytes are fed to the buffer and any nonempty match is delivered via
`deliverMatch`. -/
def Connection.handle_read (r : RecvRes) (c : Connection) :
    Except String (Connection × List Ev) :=
  if c.closed then Except.ok (c, [])
  else
    match r with
    | RecvRes.transient => Except.ok (c, [])
    | RecvRes.errToEmpty => Except.ok (c.shutdown true)
    | RecvRes.ok b =>
      if b.isEmpty then Except.ok (c.shutdown true)
      else
        deliverMatch { c with buffer := (c.buffer.feed b).2 } (c.buffer.feed b).1

/-- Outcome of the non-blocking `sock.send(data)` in
`Connection.handle_write`: `sent n` bytes, a transient condition
(EAGAIN / EINTR / TLS want-*, which backs the data up), or a fatal error
(other socket errors, TLS zero-return / syscall error, unknown). -/
inductive SendRes where
  | sent (n : Nat)
  | transient
  | fatal
  deriving DecidableEq, Repr

/-- `Connection.handle_write` of core.py: draw up to BUFSIZ from the
pipeline (a close-request condition triggers `shutdown()`), attempt the
send, back up on transient conditions, shut down on fatal errors; on a
partial send back up the unsent suffix; disable writable only once the
pipeline is drained. -/
def Connection.handle_write (sr : SendRes) (c : Connection) : Connection × List Ev :=
  if c.pipeline.emptyB || c.closed then (c, [])
  else
    match c.pipeline.read bufsiz with
    | Except.error () => c.shutdown false
    | Except.ok (data, p1) =>
      match sr with
      | SendRes.transient => ({ c with pipeline := p1.backup data }, [])
      | SendRes.fatal => Connection.shutdown true { c with pipeline := p1 }
      | SendRes.sent n =>
        let c2 : Connection :=
          if n ≠ data.length then { c with pipeline := p1.backup (data.drop n) }
          else { c with pipeline := p1 }
        if !c2.pipeline.emptyB then (c2, [])
        else c2.set_writable false

/-- A sequence of `shutdown` calls with the given `remote_closed` flags,
accumulating the hub event trace. -/
def shutdownSeq (flags : List Bool) (c : Connection) : Connection × List Ev :=
  match flags with
  | [] => (c, [])
  | f :: rest =>
    let r := c.shutdown f
    let r2 := shutdownSeq rest r.1
    (r2.1, r.2 ++ r2.2)

/-- Is an event a `waiting_callback` delivery? -/
def isDeliver : Ev → Bool
  | Ev.deliverCb _ => true
  | _ => false

/-- The finally-block of `Loop.run` in core.py: with a non-empty
connection stack, assert the stack holds exactly one connection and
close it (`pop().close()`); returns the closed connections. -/
def runFinally : List Connection → Except String (List Connection × List Connection)
  | [] => Except.ok ([], [])
  | [c] => Except.ok ([], [(c.close).1])
  | _ => Except.error "AssertionError: len(connection_stack) == 1"

/-- A cancellable timer handle as exposed by the hub (`call_later`
result with `.pending` and `.cancel()`). -/
structure TimerH where
  pending : Bool
  deriving DecidableEq, Repr

/-- Modelled from the spec: the application's wait index, a mapping from
event name to the set of Loops (by id) waiting on it (the runtime glue
module is not in the given sources). -/
structure Waits where
  table : List (String × List Nat)
  deriving DecidableEq, Repr

/-- Modelled from the spec: `clear(loop)` removes the loop from every
event set. -/
def Waits.clear (lid : Nat) (w : Waits) : Waits :=
  ⟨w.table.map (fun p => (p.1, p.2.filter (fun x => x != lid)))⟩

/-- Does any event set of the wait index contain the loop? -/
def Waits.hasWaiter (lid : Nat) (w : Waits) : Bool :=
  w.table.any (fun p => p.2.any (fun x => x == lid))

/-- Modelled from the spec: `fire(event, value)` removes all waiters for
the event and delivers to each; returns the new index and the loop ids
delivered to. -/
def Waits.fire (e : String) (w : Waits) : Waits × List Nat :=
  (⟨w.table.map (fun p => if p.1 = e then (p.1, []) else p)⟩,
    ((w.table.filter (fun p => p.1 = e)).map Prod.snd).flatten)

/-- A Loop of core.py: id, label, flags, optional wakeup timer, the
one-shot fire-handler map (event name, armed tag), the connection stack
(Python list order: the top of the stack is the LAST element), and the
parent / children relation (by id). -/
structure LoopSt where
  id : Nat
  loop_label : String
  running : Bool
  keep_alive : Bool
  wakeup_timer : Option TimerH
  fire_handlers : List (String × String)
  connection_stack : List Connection
  children : List Nat
  parent : Option Nat
  deriving DecidableEq, Repr

/-- Apply `f` to the last element (Python `[-1]`, the top of the
connection stack). -/
def modifyTop (f : Connection → Connection) : List Connection → List Connection
  | [] => []
  | [c] => [f c]
  | c :: rest => c :: modifyTop f rest

/-- The last element (Python `[-1]`, top of the connection stack). -/
def top? : List Connection → Option Connection
  | [] => none
  | [c] => some c
  | _ :: rest => top? rest

/-- `Loop.clear_pending_events` of core.py: cancel a pending wakeup
timer, clear the top-of-stack connection's buffer term and
`waiting_callback` when the stack is non-empty, empty `fire_handlers`,
and remove the loop from the application's wait index. -/
def Loop.clear_pending_events (l : LoopSt) (w : Waits) : LoopSt × Waits :=
  ({ l with
      wakeup_timer :=
        match l.wakeup_timer with
        | some t => if t.pending then some ⟨false⟩ else some t
        | none => none,
      fire_handlers := [],
      connection_stack := modifyTop
        (fun c => { c with buffer := c.buffer.clear_term, waiting_callback := false })
        l.connection_stack },
    w.clear l.id)

/-- A value a wake can carry: bytes from an input term, `True` from
sleep, or a fired event value (modelled as a `Nat`). -/
inductive DVal where
  | bytes (b : Bytes)
  | boolTrue
  | fired (n : Nat)
  deriving DecidableEq, Repr

/-- The argument of `Loop.wake`: an exception, a value, or the
`ContinueNothing` default. -/
inductive WakeVal where
  | exc (e : ExcKind)
  | val (d : DVal)
  | continueNothing
  deriving DecidableEq, Repr

/-- How the coroutine is resumed by `wake`: exceptions are thrown into
it, values are switched in. -/
inductive Resume where
  | throwInto (e : ExcKind)
  | switchWith (d : DVal)
  | switchPlain
  deriving DecidableEq, Repr

/-- `Loop.wake` of core.py: clear all pending events, then resume the
coroutine (throwing if the value is an exception). -/
def Loop.wake (v : WakeVal) (l : LoopSt) (w : Waits) : (LoopSt × Waits) × Resume :=
  (Loop.clear_pending_events l w,
    match v with
    | WakeVal.exc e => Resume.throwInto e
    | WakeVal.val d => Resume.switchWith d
    | WakeVal.continueNothing => Resume.switchPlain)

/-- Is the loop's wakeup timer armed? -/
def timerPending (l : LoopSt) : Bool :=
  match l.wakeup_timer with
  | some t => t.pending
  | none => false

/-- Does the top-of-stack connection carry an armed buffer term? -/
def topTermSet (l : LoopSt) : Bool :=
  match top? l.connection_stack with
  | some c => c.buffer.term.isSome
  | none => false

/-- Does the top-of-stack connection carry an armed waiting_callback? -/
def topCbSet (l : LoopSt) : Bool :=
  match top? l.connection_stack with
  | some c => c.waiting_callback
  | none => false

/-- Number of armed resumption sources of a loop: pending timer, fire
handlers, buffer term and waiting callback on the top-of-stack
connection, and membership in the wait index. -/
def armedSources (l : LoopSt) (w : Waits) : Nat :=
  (if timerPending l then 1 else 0) + l.fire_handlers.length
    + (if topTermSet l then 1 else 0) + (if topCbSet l then 1 else 0)
    + (if w.hasWaiter l.id then 1 else 0)

/-- Outcome of the `sock.recv(100)` probe in `Loop.connect`'s
`read_callback`: data, or a raised socket error. -/
inductive RecvCall where
  | ok (b : Bytes)
  | sockErr (msg : String)
  deriving DecidableEq, Repr

/-- `read_callback` inside `Loop.connect` of core.py: unregister the
socket, attempt `sock.recv(100)`; only when the recv raises a socket
error is a wake with ClientConnectionError scheduled. -/
def connectReadCallback (r : RecvCall) : List Ev :=
  Ev.hubUnregister ::
    (match r with
     | RecvCall.ok _ => []
     | RecvCall.sockErr _ => [Ev.scheduleWake (some ExcKind.clientConnectionError)])

/-- The keyword arguments of `Loop.first` in core.py. -/
structure FirstArgs where
  sleepArg : Option ℚ
  waits : List String
  recvArg : Option Nat
  untilArg : Option Bytes
  untilEol : Bool
  deriving DecidableEq, Repr

/-- Python truthiness of the `receive` argument (`0` and `None` are
falsy). -/
def truthyNat : Option Nat → Bool
  | some n => n != 0
  | none => false

/-- Python truthiness of the `until` argument (`''` and `None` are
falsy). -/
def truthyBytes : Option Bytes → Bool
  | some s => !s.isEmpty
  | none => false

/-- `len(filter(None, (receive, until, until_eol)))` of core.py: the
number of truthy input forms. -/
def FirstArgs.sentCount (a : FirstArgs) : Nat :=
  (if truthyNat a.recvArg then 1 else 0) + (if truthyBytes a.untilArg then 1 else 0)
    + (if a.untilEol then 1 else 0)

/-- Sentinel selection of `Loop.first`: `if receive: ... elif until: ...
elif until_eol: sentinel = CRLF`, paired with its tag token. -/
def pickSentinel (a : FirstArgs) : Option (BufTerm × String) :=
  if truthyNat a.recvArg then
    match a.recvArg with
    | some n => some (BufTerm.count n, "receive")
    | none => none
  else if truthyBytes a.untilArg then
    match a.untilArg with
    | some s => some (BufTerm.delim s, "until")
    | none => none
  else if a.untilEol then some (BufTerm.delim crlf, "until_eol")
  else none

/-- A resumption source armed by `Loop.first`, carrying the tag its
marked callback would deliver. -/
inductive Armed where
  | timer (tag : String)
  | immediate (tag : String)
  | waitEv (name : String) (tag : String)
  | inputCb (tag : String)
  deriving DecidableEq, Repr

/-- The tag a source's marked callback delivers. -/
def Armed.tag : Armed → String
  | Armed.timer t => t
  | Armed.immediate t => t
  | Armed.waitEv _ t => t
  | Armed.inputCb t => t

/-- Result of `Loop.first`: a synchronous tagged value, or suspension
with a list of armed sources. -/
inductive FirstRes where
  | sync (tag : String) (v : Bytes)
  | suspended (armed : List Armed)
  deriving DecidableEq, Repr

/-- `Loop._sleep` of core.py under a marked callback: asserts v >= 0;
v > 0 arms the wakeup timer via `call_later`, v = 0 schedules an
immediate wake. -/
def armSleep : Option ℚ → Except String (List Armed)
  | none => Except.ok []
  | some v =>
    if v < 0 then Except.error "AssertionError: v >= 0"
    else if v > 0 then Except.ok [Armed.timer "sleep"]
    else Except.ok [Armed.immediate "sleep"]

/-- `Loop._wait` under marked callbacks: one armed source per requested
event, tagged `wait-` plus the event name. -/
def armWaits (ws : List String) : List Armed :=
  ws.map (fun n => Armed.waitEv n ("wait-" ++ n))

/-- The tags `first` can resume with, per the spec's tag encoding. -/
def allowedTags (a : FirstArgs) : List String :=
  "sleep" :: "receive" :: "until" :: "until_eol"
    :: a.waits.map (fun w => "wait-" ++ w)

/-- `Loop.first` of core.py: assert at most one truthy input form; if a
sentinel is chosen, install the term on the top-of-stack connection
(a `set_term` failure propagates as an exception, core.py line 378) and
return its tag synchronously when already satisfied by a truthy match;
otherwise arm the input callback, then the sleep, then the waits, and
suspend. -/
def Loop.firstOp (a : FirstArgs) (stack : List Connection) :
    Except String (FirstRes × List Connection) :=
  if 2 ≤ a.sentCount then
    Except.error "AssertionError: only 1 of (receive, until, until_eol) may be provided"
  else
    match pickSentinel a with
    | none =>
      match armSleep a.sleepArg with
      | Except.error m => Except.error m
      | Except.ok sl =>
        Except.ok (FirstRes.suspended (sl ++ armWaits a.waits), stack)
    | some (term, tok) =>
      match top? stack with
      | none =>
        Except.error "RuntimeError: Cannot complete socket operation: no associated connection"
      | some conn =>
        if conn.closed then
          Except.error "ConnectionClosed: Cannot complete socket operation: associated connection is closed"
        else
          match conn.buffer.set_term term with
          | Except.error m => Except.error m
          | Except.ok b1 =>
            match b1.check with
            | (some v, b2) =>
              if !v.isEmpty then
                Except.ok (FirstRes.sync tok v,
                  modifyTop (fun _ => { conn with buffer := b2 }) stack)
              else
                match armSleep a.sleepArg with
                | Except.error m => Except.error m
                | Except.ok sl =>
                  Except.ok
                    (FirstRes.suspended (Armed.inputCb tok :: (sl ++ armWaits a.waits)),
                      modifyTop (fun _ => { conn with buffer := b2, waiting_callback := true })
                        stack)
            | (none, b2) =>
              match armSleep a.sleepArg with
              | Except.error m => Except.error m
              | Except.ok sl =>
                Except.ok
                  (FirstRes.suspended (Armed.inputCb tok :: (sl ++ armWaits a.waits)),
                    modifyTop (fun _ => { conn with buffer := b2, waiting_callback := true })
                      stack)

/-- Input to a marked callback: a value or an exception. -/
inductive CbIn where
  | val (d : DVal)
  | exc (e : ExcKind)
  deriving DecidableEq, Repr

/-- The argument a marked callback passes to `wake`: exceptions are
passed through raw, values are wrapped as a (tag, value) pair. -/
inductive WakeArg where
  | tagged (tag : String) (d : DVal)
  | raw (e : ExcKind)
  deriving DecidableEq, Repr

/-- `marked_cb` of `Loop.first`: `if isinstance(d, Exception): return
f(d); return f((kw, d))`. -/
def markCb (tag : String) : CbIn → WakeArg
  | CbIn.val d => WakeArg.tagged tag d
  | CbIn.exc e => WakeArg.raw e

/-- What user code observes when `first` resumes with the marked
callback's argument: `wake` throws exceptions into the coroutine, so a
raw exception is raised; a tagged pair is returned. -/
inductive FirstOutcome where
  | raisedExc (e : ExcKind)
  | taggedPair (tag : String) (d : DVal)
  deriving DecidableEq, Repr

/-- The resumption of `first` for a given source tag and callback
input. -/
def firstResume (tag : String) (d : CbIn) : FirstOutcome :=
  match markCb tag d with
  | WakeArg.raw e => FirstOutcome.raisedExc e
  | WakeArg.tagged t dv => FirstOutcome.taggedPair t dv

/-- `Loop.send` of core.py: `check_connection` (RuntimeError with no
connection on the stack, ConnectionClosed if the top one is closed),
then enqueue on its pipeline and enable writable.  Never yields to the
hub. -/
def Loop.sendOp (o : Bytes) (prio : Nat) (stack : List Connection) :
    Except String (List Connection × List Ev) :=
  match top? stack with
  | none =>
    Except.error "RuntimeError: Cannot complete socket operation: no associated connection"
  | some conn =>
    if conn.closed then
      Except.error "ConnectionClosed: Cannot complete socket operation: associated connection is closed"
    else
      let r := Connection.set_writable true { conn with pipeline := conn.pipeline.add o prio }
      Except.ok (modifyTop (fun _ => r.1) stack, r.2)

/-- `Loop.fire` of core.py via the application's wait index: every
delivered handler schedules a wake on its loop.  Never yields to the
hub. -/
def Loop.fireOp (e : String) (w : Waits) : Waits × List Ev :=
  ((w.fire e).1, (w.fire e).2.map (fun _ => Ev.scheduleWake none))

/-- `Loop.fork` of core.py (`make_child` distinguishes `fork_child`):
create a new Loop, optionally parent it, and register it with the
application; `add_loop` enqueues an immediate wake.  Never yields to the
hub. -/
def Loop.forkOp (makeChild : Bool) (childLabel : String) (parent : LoopSt)
    (cid : Nat) : (LoopSt × LoopSt) × List Ev :=
  let child : LoopSt :=
    { id := cid, loop_label := childLabel, running := false, keep_alive := false,
      wakeup_timer := none, fire_handlers := [], connection_stack := [],
      children := [], parent := if makeChild then some parent.id else none }
  ((if makeChild then { parent with children := parent.children ++ [cid] } else parent,
      child),
    [Ev.scheduleWake none])

/-- `Loop.label` of core.py: replace the loop's label.  Never yields to
the hub. -/
def Loop.labelOp (s : String) (l : LoopSt) : LoopSt × List Ev :=
  ({ l with loop_label := s }, [])

/-- A concrete loop with every resumption source armed, used by
witnesses: a pending timer, a fire handler, a connection with a term and
a waiting callback, and a wait-index registration. -/
def loop0 : LoopSt :=
  { id := 7, loop_label := "loop0", running := true, keep_alive := false,
    wakeup_timer := some ⟨true⟩, fire_handlers := [("go", "wait-go")],
    connection_stack :=
      [{ pipeline := ⟨[], false⟩, buffer := ⟨['a'], some (BufTerm.delim ['\n'])⟩,
         hubRegistered := true, writable := false, closed := false, sockOpen := true,
         waiting_callback := true }],
    children := [], parent := none }

/-- A concrete wait index with loop 7 registered on event "go". -/
def waits0 : Waits := ⟨[("go", [7, 9])]⟩

/-- Concrete `first` arguments: sleep 1s, wait on "go", until CR-LF. -/
def firstArgs0 : FirstArgs := ⟨some 1, ["go"], none, some ['\r', '\n'], false⟩

/-- A concrete open connection whose buffer already holds a full
CR-LF-terminated line. -/
def connRd : Connection :=
  { pipeline := ⟨[], false⟩, buffer := ⟨['h', 'i', '\r', '\n'], none⟩,
    hubRegistered := true, writable := false, closed := false, sockOpen := true,
    waiting_callback := false }

/-- A concrete open connection used by witnesses. -/
def conn0 : Connection :=
  { pipeline := ⟨[], false⟩, buffer := ⟨[], none⟩, hubRegistered := true,
    writable := false, closed := false, sockOpen := true, waiting_callback := false }

/-- A concrete open, connected client used by witnesses. -/
def client0 : Client := ⟨true, some conn0⟩

/-- A concrete open connection with a waiting callback and a pending
newline delimiter term. -/
def connCb : Connection :=
  { pipeline := ⟨[], false⟩, buffer := ⟨[], some (BufTerm.delim ['\n'])⟩,
    hubRegistered := true, writable := false, closed := false, sockOpen := true,
    waiting_callback := true }

/-- A concrete open, writable connection with two bytes queued on the
pipeline. -/
def connWr : Connection :=
  { pipeline := ⟨[⟨5, ['a', 'b']⟩], false⟩, buffer := ⟨[], none⟩,
    hubRegistered := true, writable := true, closed := false, sockOpen := true,
    waiting_callback := false }

end Diesel

namespace Diesel

/-- `shutdown` always leaves the connection unregistered, closed, and
with the socket closed, whatever the `remote_closed` flag. -/
lemma shutdown_state (f : Bool) (c : Connection) :
    (c.shutdown f).1.hubRegistered = false ∧ (c.shutdown f).1.closed = true ∧
      (c.shutdown f).1.sockOpen = false := by
  cases f <;> cases hw : c.waiting_callback <;> simp [Connection.shutdown, hw]

/-- `shutdown` never changes `waiting_callback`. -/
lemma shutdown_keeps_cb (f : Bool) (c : Connection) :
    (c.shutdown f).1.waiting_callback = c.waiting_callback := by
  cases f <;> cases hw : c.waiting_callback <;> simp [Connection.shutdown, hw]

/-- Each single `shutdown` call emits exactly one hub unregister. -/
lemma shutdown_unreg_count (f : Bool) (c : Connection) :
    (c.shutdown f).2.count Ev.hubUnregister = 1 := by
  cases f <;> cases hw : c.waiting_callback <;>
    simp [Connection.shutdown, hw, List.count_append, List.count_cons]

/-- A non-empty sequence of `shutdown` calls leaves the connection
unregistered, closed, and with the socket closed. -/
lemma shutdownSeq_state (flags : List Bool) (c : Connection) (h : flags ≠ []) :
    (shutdownSeq flags c).1.hubRegistered = false ∧
      (shutdownSeq flags c).1.closed = true ∧
      (shutdownSeq flags c).1.sockOpen = false := by
  induction flags generalizing c with
  | nil => exact absurd rfl h
  | cons f rest ih =>
    cases rest with
    | nil => exact shutdown_state f c
    | cons g rs => exact ih (c.shutdown f).1 (by simp)

/-- Injectivity of `Except.ok` on pairs, first component. -/
lemma ok_pair_fst {ε α β : Type} {x : α × β} {a : α} {b : β}
    (h : (Except.ok x : Except ε (α × β)) = Except.ok (a, b)) : x.1 = a := by
  injection h with h1
  rw [h1]

/-- `deliverMatch` never changes `waiting_callback` when it returns. -/
lemma deliverMatch_keeps_cb (c1 : Connection) (o : Option Bytes) (c' : Connection)
    (evs : List Ev) (h : deliverMatch c1 o = Except.ok (c', evs)) :
    c'.waiting_callback = c1.waiting_callback := by
  cases o with
  | none => rw [← ok_pair_fst h]
  | some res =>
    unfold deliverMatch at h
    dsimp only at h
    by_cases hres : res.isEmpty = true
    · rw [if_pos hres] at h
      rw [← ok_pair_fst h]
    · rw [if_neg hres] at h
      by_cases hcb : c1.waiting_callback = true
      · rw [if_pos hcb] at h
        rw [← ok_pair_fst h]
      · rw [if_neg hcb] at h
        exact absurd h (by simp)

/-- A sequence of `shutdown` calls emits one hub unregister per call. -/
lemma shutdownSeq_count (flags : List Bool) (c : Connection) :
    (shutdownSeq flags c).2.count Ev.hubUnregister = flags.length := by
  induction flags generalizing c with
  | nil => rfl
  | cons f rest ih =>
    show ((c.shutdown f).2 ++ (shutdownSeq rest (c.shutdown f).1).2).count
        Ev.hubUnregister = rest.length + 1
    rw [List.count_append, shutdown_unreg_count, ih]
    omega

/-- `modifyTop` of a non-empty list is non-empty. -/
lemma modifyTop_ne_nil (f : Connection → Connection) (b : Connection)
    (t : List Connection) : modifyTop f (b :: t) ≠ [] := by
  cases t <;> simp [modifyTop]

/-- `top?` skips the head when the tail is non-empty. -/
lemma top?_cons_of_ne_nil (a : Connection) (l : List Connection) (h : l ≠ []) :
    top? (a :: l) = top? l := by
  cases l with
  | nil => exact absurd rfl h
  | cons b t => rfl

/-- `top?` commutes with `modifyTop`. -/
lemma top?_modifyTop (f : Connection → Connection) (xs : List Connection) :
    top? (modifyTop f xs) = (top? xs).map f := by
  induction xs with
  | nil => rfl
  | cons a t ih =>
    cases t with
    | nil => rfl
    | cons b t2 =>
      show top? (a :: modifyTop f (b :: t2)) = (top? (b :: t2)).map f
      rw [top?_cons_of_ne_nil a _ (modifyTop_ne_nil f b t2)]
      exact ih

/-- Filtering a loop id out leaves no occurrence of it. -/
lemma any_filter_ne (lid : Nat) (l : List Nat) :
    (l.filter (fun x => x != lid)).any (fun x => x == lid) = false := by
  induction l with
  | nil => rfl
  | cons a t ih =>
    by_cases h : a = lid
    · simp [List.filter_cons, h, ih]
    · simp [List.filter_cons, h, ih]

/-- After clearing a loop from the wait index, no event set contains
it. -/
lemma hasWaiter_clear_table (lid : Nat) (tbl : List (String × List Nat)) :
    Waits.hasWaiter lid
      ⟨tbl.map (fun p => (p.1, p.2.filter (fun x => x != lid)))⟩ = false := by
  induction tbl with
  | nil => rfl
  | cons p t ih =>
    show (((p.1, p.2.filter (fun x => x != lid)) ::
        t.map (fun p => (p.1, p.2.filter (fun x => x != lid)))).any
        (fun p => p.2.any (fun x => x == lid))) = false
    rw [List.any_cons]
    rw [show ((p.1, p.2.filter (fun x => x != lid)).2.any (fun x => x == lid)) = false
        from any_filter_ne lid p.2]
    rw [Bool.false_or]
    exact ih

/-- C6: after `Client.close()` on a client that is not already closed,
`conn` is none and the `connected` flag is set to true (as the source
does; the spec flags this as an apparent slip for false). -/
theorem client_close_sets_conn_none_connected_true (cl : Client)
    (h : cl.is_closed = false) :
    (cl.close).1.conn = none ∧ (cl.close).1.connected = true := by
  unfold Client.close
  rw [h]
  simp only [Bool.false_eq_true, if_false]
  cases hc : cl.conn with
  | none => simp [Client.is_closed, hc] at h
  | some c => simp

/-- Witness for C6 at a concrete open client. -/
theorem client_close_sets_conn_none_connected_true_witness :
    (client0.is_closed = false)
    ∧ ((client0.close).1.conn = none ∧ (client0.close).1.connected = true) :=
  ⟨by decide, client_close_sets_conn_none_connected_true client0 (by decide)⟩

/-- C10: after `Client.close()` on an open, connected client, every
`@call`-wrapped operation raises ConnectionClosed at the `is_closed`
check: `is_closed` is true because `conn` is none, even though
`connected` stays true. -/
theorem call_after_close_raises_connection_closed (cl : Client)
    (_hconn : cl.connected = true) (hopen : cl.is_closed = false) :
    (cl.close).1.is_closed = true ∧ (cl.close).1.connected = true ∧
      callGuard (cl.close).1 = CallGuard.wasClosed := by
  have h := client_close_sets_conn_none_connected_true cl hopen
  have hclosed : (cl.close).1.is_closed = true := by
    unfold Client.is_closed
    rw [h.1]
  refine ⟨hclosed, h.2, ?_⟩
  unfold callGuard
  rw [h.2, hclosed]
  simp

/-- Witness for C10 at a concrete open, connected client. -/
theorem call_after_close_raises_connection_closed_witness :
    (client0.connected = true) ∧ (client0.is_closed = false)
    ∧ ((client0.close).1.is_closed = true ∧ (client0.close).1.connected = true
      ∧ callGuard (client0.close).1 = CallGuard.wasClosed) :=
  ⟨by decide, by decide,
    call_after_close_raises_connection_closed client0 (by decide) (by decide)⟩

/-- C2 counterexample: calling `shutdown` twice on a registered open
connection invokes `hub.unregister` twice, not exactly once — the body
of `Connection.shutdown` unregisters unconditionally on every call. -/
theorem shutdown_twice_unregisters_twice_counterexample :
    (shutdownSeq [false, false] conn0).2.count Ev.hubUnregister = 2 ∧
      (shutdownSeq [false, false] conn0).2.count Ev.hubUnregister ≠ 1 := by
  decide

/-- C2 (amended): calling `shutdown` any N ≥ 1 times leaves the hub
registration state, the closed flag and the socket state identical to
calling it exactly once, but `hub.unregister` is invoked once per call
(N times), so the idempotence is of the resulting state, not of the
number of unregister calls. -/
theorem shutdown_idempotent_amended (c : Connection) (flags : List Bool)
    (h : flags ≠ []) :
    ((shutdownSeq flags c).1.hubRegistered = (c.shutdown true).1.hubRegistered
      ∧ (shutdownSeq flags c).1.closed = (c.shutdown true).1.closed
      ∧ (shutdownSeq flags c).1.sockOpen = (c.shutdown true).1.sockOpen)
    ∧ (shutdownSeq flags c).2.count Ev.hubUnregister = flags.length := by
  obtain ⟨h1, h2, h3⟩ := shutdownSeq_state flags c h
  obtain ⟨g1, g2, g3⟩ := shutdown_state true c
  exact ⟨⟨by rw [h1, g1], by rw [h2, g2], by rw [h3, g3]⟩, shutdownSeq_count flags c⟩

/-- Witness for C2 (amended) at a concrete connection and two calls. -/
theorem shutdown_idempotent_amended_witness :
    ([true, false] ≠ ([] : List Bool)) ∧
    (((shutdownSeq [true, false] conn0).1.hubRegistered
        = (conn0.shutdown true).1.hubRegistered
      ∧ (shutdownSeq [true, false] conn0).1.closed = (conn0.shutdown true).1.closed
      ∧ (shutdownSeq [true, false] conn0).1.sockOpen
        = (conn0.shutdown true).1.sockOpen)
    ∧ (shutdownSeq [true, false] conn0).2.count Ev.hubUnregister
        = [true, false].length) :=
  ⟨by decide, shutdown_idempotent_amended conn0 [true, false] (by decide)⟩

/-- C3 counterexample: on both delivery sites the source leaves
`waiting_callback` set after delivering — `handle_read` delivers a
matched chunk and `shutdown(remote=True)` delivers ConnectionClosed,
and in both outcomes `waiting_callback` is still set, refuting "the
waiting_callback is cleared (set to none) immediately after the
delivery". -/
theorem delivery_keeps_waiting_callback_counterexample :
    ((Connection.handle_read (RecvRes.ok ['x', '\n']) connCb).toOption.map
        (fun r => (r.1.waiting_callback, r.2.any isDeliver)) = some (true, true))
    ∧ ((connCb.shutdown true).1.waiting_callback = true
      ∧ (connCb.shutdown true).2.any isDeliver = true) := by
  decide

/-- C3 (amended): `shutdown` delivers iff `remote` and a
`waiting_callback` is set; `handle_read` attempts delivery whenever
feeding yields a nonempty match, raising a TypeError if no callback is
set; and neither site clears `waiting_callback` — every non-crashing
outcome of either handler preserves it (it is cleared later, by
`Loop.clear_pending_events`, when the loop wakes). -/
theorem delivery_never_clears_waiting_callback (c : Connection) (remote : Bool)
    (r : RecvRes) :
    ((c.shutdown remote).2.any isDeliver = (remote && c.waiting_callback))
    ∧ ((c.shutdown remote).1.waiting_callback = c.waiting_callback)
    ∧ (∀ c' evs, Connection.handle_read r c = Except.ok (c', evs) →
        c'.waiting_callback = c.waiting_callback)
    ∧ (∀ b res bf, c.closed = false → r = RecvRes.ok b → b.isEmpty = false →
        c.buffer.feed b = (some res, bf) → res.isEmpty = false →
        c.waiting_callback = false →
        Connection.handle_read r c =
          Except.error "TypeError: waiting_callback is None") := by
  refine ⟨?_, shutdown_keeps_cb remote c, ?_, ?_⟩
  · cases remote <;> cases hw : c.waiting_callback <;>
      simp [Connection.shutdown, hw, isDeliver]
  · intro c' evs hok
    unfold Connection.handle_read at hok
    by_cases hc : c.closed = true
    · rw [if_pos hc] at hok
      rw [← ok_pair_fst hok]
    · rw [if_neg hc] at hok
      cases r with
      | transient => rw [← ok_pair_fst hok]
      | errToEmpty =>
        rw [← ok_pair_fst hok]
        exact shutdown_keeps_cb true c
      | ok b =>
        dsimp only at hok
        by_cases hb : b.isEmpty = true
        · rw [if_pos hb] at hok
          rw [← ok_pair_fst hok]
          exact shutdown_keeps_cb true c
        · rw [if_neg hb] at hok
          exact deliverMatch_keeps_cb { c with buffer := (Buffer.feed b c.buffer).2 }
            (Buffer.feed b c.buffer).1 c' evs hok
  · intro b res bf hc hr hb hfeed hres hcb
    subst hr
    simp [Connection.handle_read, deliverMatch, hc, hb, hfeed, hres, hcb]

/-- Witness for C3 (amended) at a concrete connection and read. -/
theorem delivery_never_clears_waiting_callback_witness :
    ((connCb.shutdown true).2.any isDeliver = (true && connCb.waiting_callback))
    ∧ ((connCb.shutdown true).1.waiting_callback = connCb.waiting_callback)
    ∧ (∀ c' evs,
        Connection.handle_read (RecvRes.ok ['x', '\n']) connCb = Except.ok (c', evs) →
        c'.waiting_callback = connCb.waiting_callback)
    ∧ (∀ b res bf, connCb.closed = false → RecvRes.ok ['x', '\n'] = RecvRes.ok b →
        b.isEmpty = false → connCb.buffer.feed b = (some res, bf) →
        res.isEmpty = false → connCb.waiting_callback = false →
        Connection.handle_read (RecvRes.ok ['x', '\n']) connCb =
          Except.error "TypeError: waiting_callback is None") :=
  delivery_never_clears_waiting_callback connCb true (RecvRes.ok ['x', '\n'])

/-- C7: on Loop.run exit, an empty connection stack closes nothing; a
one-element stack has its single connection closed (close requested); a
stack of two or more trips the assertion. -/
theorem loop_run_closes_single_connection (stack : List Connection) :
    (stack = [] → runFinally stack = Except.ok ([], []))
    ∧ (∀ c, stack = [c] →
        runFinally stack = Except.ok ([], [(c.close).1])
        ∧ ((c.close).1).pipeline.closeReq = true)
    ∧ (2 ≤ stack.length → runFinally stack =
        Except.error "AssertionError: len(connection_stack) == 1") := by
  refine ⟨?_, ?_, ?_⟩
  · intro h; subst h; rfl
  · intro c h; subst h
    refine ⟨rfl, ?_⟩
    simp [Connection.close, Pipeline.close_request]
  · intro h
    match stack with
    | [] => simp at h
    | [c] => simp at h
    | a :: b :: t => rfl

/-- Witness for C7 at a concrete one-element stack. -/
theorem loop_run_closes_single_connection_witness :
    (([conn0] : List Connection) = [] →
      runFinally [conn0] = Except.ok ([], []))
    ∧ (∀ c, ([conn0] : List Connection) = [c] →
        runFinally [conn0] = Except.ok ([], [(c.close).1])
        ∧ ((c.close).1).pipeline.closeReq = true)
    ∧ (2 ≤ ([conn0] : List Connection).length → runFinally [conn0] =
        Except.error "AssertionError: len(connection_stack) == 1") :=
  loop_run_closes_single_connection [conn0]

/-- After `backup` of nonempty bytes the pipeline is not empty. -/
lemma backup_emptyB_false (bs : Bytes) (p : Pipeline) (h : bs.isEmpty = false) :
    (p.backup bs).emptyB = false := by
  unfold Pipeline.backup Pipeline.emptyB
  simp [List.all_cons, h]

/-- Dropping fewer than all elements leaves a nonempty list. -/
lemma drop_lt_isEmpty (l : Bytes) (k : Nat) (h : k < l.length) :
    (l.drop k).isEmpty = false := by
  cases hd : l.drop k with
  | nil =>
    have hlen := congrArg List.length hd
    simp [List.length_drop] at hlen
    omega
  | cons a t => simp

/-- C8: on the write edge, a partial send of k < len(data) bytes pushes
exactly the unsent suffix data[k:] back to the front of the pipeline;
the pipeline is then non-empty, so the handler returns without
disabling writable and writable stays enabled. -/
theorem handle_write_partial_send (c : Connection) (k : Nat)
    (hcl : c.closed = false) (hne : c.pipeline.emptyB = false)
    (hwr : c.writable = true)
    (hk : k < ((takeBytes bufsiz c.pipeline.items).1).length) :
    (c.handle_write (SendRes.sent k)).1.pipeline =
      Pipeline.backup (((takeBytes bufsiz c.pipeline.items).1).drop k)
        ⟨(takeBytes bufsiz c.pipeline.items).2, c.pipeline.closeReq⟩
    ∧ (c.handle_write (SendRes.sent k)).1.pipeline.emptyB = false
    ∧ (c.handle_write (SendRes.sent k)).1.writable = true
    ∧ (c.handle_write (SendRes.sent k)).2 = [] := by
  have hread : c.pipeline.read bufsiz =
      Except.ok ((takeBytes bufsiz c.pipeline.items).1,
        ⟨(takeBytes bufsiz c.pipeline.items).2, c.pipeline.closeReq⟩) := by
    unfold Pipeline.read
    simp [hne]
  have hkne : k ≠ ((takeBytes bufsiz c.pipeline.items).1).length := Nat.ne_of_lt hk
  have hdrop := drop_lt_isEmpty _ k hk
  have hbk := backup_emptyB_false (((takeBytes bufsiz c.pipeline.items).1).drop k)
    ⟨(takeBytes bufsiz c.pipeline.items).2, c.pipeline.closeReq⟩ hdrop
  unfold Connection.handle_write
  simp [hne, hcl, hread, hkne, hbk, hwr]

/-- Witness for C8 at a concrete connection with two queued bytes and a
one-byte send. -/
theorem handle_write_partial_send_witness :
    (connWr.closed = false) ∧ (connWr.pipeline.emptyB = false)
    ∧ (connWr.writable = true)
    ∧ (1 < ((takeBytes bufsiz connWr.pipeline.items).1).length)
    ∧ ((connWr.handle_write (SendRes.sent 1)).1.pipeline =
        Pipeline.backup (((takeBytes bufsiz connWr.pipeline.items).1).drop 1)
          ⟨(takeBytes bufsiz connWr.pipeline.items).2, connWr.pipeline.closeReq⟩
      ∧ (connWr.handle_write (SendRes.sent 1)).1.pipeline.emptyB = false
      ∧ (connWr.handle_write (SendRes.sent 1)).1.writable = true
      ∧ (connWr.handle_write (SendRes.sent 1)).2 = []) :=
  ⟨by decide, by decide, by decide, by decide,
    handle_write_partial_send connWr 1 (by decide) (by decide) (by decide) (by decide)⟩

/-- C1: `Loop.wake` runs `clear_pending_events` before resuming user
code: the state handed to user code has no pending wakeup timer, no
buffer term and no waiting_callback on the top-of-stack connection,
empty fire_handlers, and no wait-index registration — so of any set of
concurrently armed resumption sources, at most one (the one that fired)
delivers a wake before user code runs, and zero remain armed. -/
theorem wake_cancels_other_sources (l : LoopSt) (w : Waits) (v : WakeVal) :
    timerPending (Loop.wake v l w).1.1 = false
    ∧ (∀ c, top? (Loop.wake v l w).1.1.connection_stack = some c →
        c.buffer.term = none ∧ c.waiting_callback = false)
    ∧ (Loop.wake v l w).1.1.fire_handlers = []
    ∧ (Loop.wake v l w).1.2.hasWaiter l.id = false
    ∧ armedSources (Loop.wake v l w).1.1 (Loop.wake v l w).1.2 = 0 := by
  have h1 : timerPending (Loop.wake v l w).1.1 = false := by
    show timerPending (Loop.clear_pending_events l w).1 = false
    unfold Loop.clear_pending_events timerPending
    cases ht : l.wakeup_timer with
    | none => simp
    | some t => cases hp : t.pending <;> simp [hp]
  have h2 : ∀ c, top? (Loop.wake v l w).1.1.connection_stack = some c →
      c.buffer.term = none ∧ c.waiting_callback = false := by
    intro c hc
    have hmt : top? (modifyTop
        (fun c => { c with buffer := c.buffer.clear_term, waiting_callback := false })
        l.connection_stack) = some c := hc
    rw [top?_modifyTop] at hmt
    cases htop : top? l.connection_stack with
    | none => rw [htop] at hmt; exact absurd hmt (by simp)
    | some c0 =>
      rw [htop] at hmt
      injection hmt with h
      rw [← h]
      exact ⟨rfl, rfl⟩
  have h3 : (Loop.wake v l w).1.1.fire_handlers = [] := rfl
  have h4 : (Loop.wake v l w).1.2.hasWaiter l.id = false :=
    hasWaiter_clear_table l.id w.table
  have hterm : topTermSet (Loop.wake v l w).1.1 = false := by
    unfold topTermSet
    cases htop2 : top? (Loop.wake v l w).1.1.connection_stack with
    | none => simp
    | some c =>
      obtain ⟨ht, _⟩ := h2 c htop2
      simp [ht]
  have hcb : topCbSet (Loop.wake v l w).1.1 = false := by
    unfold topCbSet
    cases htop2 : top? (Loop.wake v l w).1.1.connection_stack with
    | none => simp
    | some c =>
      obtain ⟨_, hq⟩ := h2 c htop2
      simp [hq]
  refine ⟨h1, h2, h3, h4, ?_⟩
  have hid : (Loop.wake v l w).1.1.id = l.id := rfl
  unfold armedSources
  rw [h1, h3, hterm, hcb, hid, h4]
  simp

/-- Witness for C1 at a concrete loop with a pending timer, a fire
handler, an armed connection, and a wait registration. -/
theorem wake_cancels_other_sources_witness :
    timerPending (Loop.wake WakeVal.continueNothing loop0 waits0).1.1 = false
    ∧ (∀ c, top? (Loop.wake WakeVal.continueNothing loop0 waits0).1.1.connection_stack
          = some c → c.buffer.term = none ∧ c.waiting_callback = false)
    ∧ (Loop.wake WakeVal.continueNothing loop0 waits0).1.1.fire_handlers = []
    ∧ (Loop.wake WakeVal.continueNothing loop0 waits0).1.2.hasWaiter loop0.id = false
    ∧ armedSources (Loop.wake WakeVal.continueNothing loop0 waits0).1.1
        (Loop.wake WakeVal.continueNothing loop0 waits0).1.2 = 0 :=
  wake_cancels_other_sources loop0 waits0 WakeVal.continueNothing

/-- C4 counterexample: a read-readiness edge during connect whose
`sock.recv(100)` probe succeeds (returns data) does NOT wake the Loop —
the socket is unregistered and nothing is scheduled, so not every read
edge is treated as a ClientConnectionError failure. -/
theorem connect_read_edge_counterexample :
    connectReadCallback (RecvCall.ok ['x']) = [Ev.hubUnregister]
    ∧ Ev.scheduleWake (some ExcKind.clientConnectionError) ∉
        connectReadCallback (RecvCall.ok ['x']) := by
  refine ⟨rfl, ?_⟩
  decide

/-- C4 (amended): on a read-readiness edge during connect, the socket
is always unregistered first, and the Loop is woken with a
ClientConnectionError exactly when the `sock.recv(100)` probe raises a
socket error; a successful probe schedules no wake at all. -/
theorem connect_read_edge_amended (r : RecvCall) :
    (connectReadCallback r).head? = some Ev.hubUnregister
    ∧ ((Ev.scheduleWake (some ExcKind.clientConnectionError) ∈ connectReadCallback r)
        ↔ ∃ m, r = RecvCall.sockErr m) := by
  cases r with
  | ok b => simp [connectReadCallback]
  | sockErr m => simp [connectReadCallback]

/-- Witness for C4 (amended) at a concrete raised socket error. -/
theorem connect_read_edge_amended_witness :
    (connectReadCallback (RecvCall.sockErr "Connection refused")).head?
        = some Ev.hubUnregister
    ∧ ((Ev.scheduleWake (some ExcKind.clientConnectionError) ∈
          connectReadCallback (RecvCall.sockErr "Connection refused"))
        ↔ ∃ m, RecvCall.sockErr "Connection refused" = RecvCall.sockErr m) :=
  connect_read_edge_amended (RecvCall.sockErr "Connection refused")

/-- `set_writable` emits at most one write-interest toggle. -/
lemma set_writable_evs (val : Bool) (c : Connection) :
    (Connection.set_writable val c).2 = [] ∨
      (Connection.set_writable val c).2 = [Ev.hubEnableWrite] ∨
      (Connection.set_writable val c).2 = [Ev.hubDisableWrite] := by
  unfold Connection.set_writable
  by_cases h1 : c.closed = true
  · rw [if_pos h1]; left; rfl
  · rw [if_neg h1]
    by_cases h2 : (val && !c.writable) = true
    · rw [if_pos h2]; right; left; rfl
    · rw [if_neg h2]
      by_cases h3 : (!val && c.writable) = true
      · rw [if_pos h3]; right; right; rfl
      · rw [if_neg h3]; left; rfl

/-- C9: none of `send`, `fire`, `fork`, `fork_child`, `label` yields to
the scheduler: every event trace they produce is free of the
yield-to-hub event (`send` only toggles write interest, `fire` and
`fork`/`fork_child` only schedule wakes, `label` emits nothing and just
replaces the label), so each returns synchronously. -/
theorem nonsuspending_primitives (o : Bytes) (prio : Nat) (stack : List Connection)
    (e : String) (w : Waits) (mk : Bool) (clbl : String) (parent : LoopSt)
    (cid : Nat) (s : String) :
    (∀ stack' evs, Loop.sendOp o prio stack = Except.ok (stack', evs) →
      Ev.yieldToHub ∉ evs)
    ∧ Ev.yieldToHub ∉ (Loop.fireOp e w).2
    ∧ Ev.yieldToHub ∉ (Loop.forkOp mk clbl parent cid).2
    ∧ (Loop.labelOp s parent).2 = []
    ∧ (Loop.labelOp s parent).1.loop_label = s := by
  refine ⟨?_, ?_, ?_, rfl, rfl⟩
  · intro stack' evs h
    unfold Loop.sendOp at h
    cases htop : top? stack with
    | none => rw [htop] at h; exact absurd h (by simp)
    | some conn =>
      rw [htop] at h
      dsimp only at h
      by_cases hcl : conn.closed = true
      · rw [if_pos hcl] at h; exact absurd h (by simp)
      · rw [if_neg hcl] at h
        have hevs : (Connection.set_writable true
            { conn with pipeline := conn.pipeline.add o prio }).2 = evs := by
          injection h with h1
          exact congrArg Prod.snd h1
        rw [← hevs]
        rcases set_writable_evs true { conn with pipeline := conn.pipeline.add o prio }
          with he | he | he <;> rw [he] <;> decide
  · intro hmem
    unfold Loop.fireOp at hmem
    rw [List.mem_map] at hmem
    obtain ⟨x, _, hx⟩ := hmem
    exact absurd hx (by simp)
  · intro hmem
    have : Ev.yieldToHub ∈ [Ev.scheduleWake none] := hmem
    exact absurd this (by decide)

/-- Witness for C9 at concrete arguments. -/
theorem nonsuspending_primitives_witness :
    (∀ stack' evs, Loop.sendOp ['h', 'i'] 5 [conn0] = Except.ok (stack', evs) →
      Ev.yieldToHub ∉ evs)
    ∧ Ev.yieldToHub ∉ (Loop.fireOp "go" waits0).2
    ∧ Ev.yieldToHub ∉ (Loop.forkOp true "child" loop0 8).2
    ∧ (Loop.labelOp "renamed" loop0).2 = []
    ∧ (Loop.labelOp "renamed" loop0).1.loop_label = "renamed" :=
  nonsuspending_primitives ['h', 'i'] 5 [conn0] "go" waits0 true "child" loop0 8 "renamed"

/-- The sentinel token chosen by `first` is one of the three input
tags. -/
lemma pickSentinel_tok (a : FirstArgs) (term : BufTerm) (tok : String)
    (h : pickSentinel a = some (term, tok)) :
    tok = "receive" ∨ tok = "until" ∨ tok = "until_eol" := by
  unfold pickSentinel at h
  by_cases h1 : truthyNat a.recvArg = true
  · rw [if_pos h1] at h
    cases hr : a.recvArg with
    | some n =>
      rw [hr] at h
      injection h with h2
      left
      exact (congrArg Prod.snd h2).symm
    | none => rw [hr] at h1; exact absurd h1 (by simp [truthyNat])
  · rw [if_neg h1] at h
    by_cases h2 : truthyBytes a.untilArg = true
    · rw [if_pos h2] at h
      cases hu : a.untilArg with
      | some d =>
        rw [hu] at h
        injection h with h3
        right; left
        exact (congrArg Prod.snd h3).symm
      | none => rw [hu] at h2; exact absurd h2 (by simp [truthyBytes])
    · rw [if_neg h2] at h
      by_cases h3 : a.untilEol = true
      · rw [if_pos h3] at h
        injection h with h4
        right; right
        exact (congrArg Prod.snd h4).symm
      · rw [if_neg h3] at h
        exact absurd h (by simp)

/-- Every source armed by `_sleep` carries the `sleep` tag. -/
lemma armSleep_tags (o : Option ℚ) (sl : List Armed)
    (h : armSleep o = Except.ok sl) (s : Armed) (hs : s ∈ sl) :
    s.tag = "sleep" := by
  cases o with
  | none =>
    injection h with h1
    rw [← h1] at hs
    exact absurd hs (by simp)
  | some v =>
    unfold armSleep at h
    dsimp only at h
    by_cases hv : v < 0
    · rw [if_pos hv] at h
      exact absurd h (by simp)
    · rw [if_neg hv] at h
      by_cases hv2 : v > 0
      · rw [if_pos hv2] at h
        injection h with h1
        rw [← h1] at hs
        have := List.mem_singleton.mp hs
        rw [this]
        rfl
      · rw [if_neg hv2] at h
        injection h with h1
        rw [← h1] at hs
        have := List.mem_singleton.mp hs
        rw [this]
        rfl

/-- Every source armed by `_wait` carries a `wait-` tag for one of the
requested events. -/
lemma armWaits_tags (ws : List String) (s : Armed) (hs : s ∈ armWaits ws) :
    ∃ w ∈ ws, s.tag = "wait-" ++ w := by
  unfold armWaits at hs
  rw [List.mem_map] at hs
  obtain ⟨w, hw, hmap⟩ := hs
  exact ⟨w, hw, by rw [← hmap]; rfl⟩

/-- Tags of the sleep and wait sources armed by `first` are in the
allowed set. -/
lemma armed_tail_tags (a : FirstArgs) (sl : List Armed)
    (hsl : armSleep a.sleepArg = Except.ok sl) (s : Armed)
    (hs : s ∈ sl ++ armWaits a.waits) : s.tag ∈ allowedTags a := by
  unfold allowedTags
  rcases List.mem_append.mp hs with h | h
  · rw [armSleep_tags a.sleepArg sl hsl s h]
    exact List.mem_cons_self _ _
  · obtain ⟨w, hw, htag⟩ := armWaits_tags a.waits s h
    rw [htag]
    exact List.mem_cons_of_mem _ (List.mem_cons_of_mem _ (List.mem_cons_of_mem _
      (List.mem_cons_of_mem _ (List.mem_map.mpr ⟨w, hw, rfl⟩))))

/-- Tags of the input, sleep and wait sources armed by `first` are in
the allowed set. -/
lemma armed_cons_tags (a : FirstArgs) (term : BufTerm) (tok : String)
    (hpick : pickSentinel a = some (term, tok)) (sl : List Armed)
    (hsl : armSleep a.sleepArg = Except.ok sl) (s : Armed)
    (hs : s ∈ Armed.inputCb tok :: (sl ++ armWaits a.waits)) :
    s.tag ∈ allowedTags a := by
  rcases List.mem_cons.mp hs with h | h
  · rw [h]
    show tok ∈ allowedTags a
    unfold allowedTags
    rcases pickSentinel_tok a term tok hpick with h1 | h1 | h1 <;> rw [h1]
    · exact List.mem_cons_of_mem _ (List.mem_cons_self _ _)
    · exact List.mem_cons_of_mem _ (List.mem_cons_of_mem _ (List.mem_cons_self _ _))
    · exact List.mem_cons_of_mem _ (List.mem_cons_of_mem _
        (List.mem_cons_of_mem _ (List.mem_cons_self _ _)))
  · exact armed_tail_tags a sl hsl s h

/-- C5: `first` asserts at most one truthy input form; a term already
satisfied by buffered data returns its `(tag, value)` pair synchronously
with no sleep timer, no waits and no waiting_callback armed (only the
top connection's buffer changes); a `set_term` failure (a different term
already active) propagates as a failure of `first`; a suspension resumes
via sources whose tags are among sleep / wait-name / receive / until /
until_eol; and an exception delivered to the marked callback is raised
into the coroutine rather than returned as a tagged pair. -/
theorem first_sync_and_tag_encoding (a : FirstArgs) (stack : List Connection) :
    (2 ≤ a.sentCount →
      Loop.firstOp a stack =
        Except.error "AssertionError: only 1 of (receive, until, until_eol) may be provided")
    ∧ (∀ term tok conn b1 v b2, a.sentCount ≤ 1 →
        pickSentinel a = some (term, tok) → top? stack = some conn →
        conn.closed = false →
        conn.buffer.set_term term = Except.ok b1 →
        b1.check = (some v, b2) → v.isEmpty = false →
        Loop.firstOp a stack =
          Except.ok (FirstRes.sync tok v,
            modifyTop (fun _ => { conn with buffer := b2 }) stack))
    ∧ (∀ term tok conn m, a.sentCount ≤ 1 →
        pickSentinel a = some (term, tok) → top? stack = some conn →
        conn.closed = false →
        conn.buffer.set_term term = Except.error m →
        Loop.firstOp a stack = Except.error m)
    ∧ (∀ armed stack',
        Loop.firstOp a stack = Except.ok (FirstRes.suspended armed, stack') →
        ∀ s ∈ armed, s.tag ∈ allowedTags a)
    ∧ (∀ tag e, firstResume tag (CbIn.exc e) = FirstOutcome.raisedExc e)
    ∧ (∀ tag d, firstResume tag (CbIn.val d) = FirstOutcome.taggedPair tag d) := by
  refine ⟨?_, ?_, ?_, ?_, fun tag e => rfl, fun tag d => rfl⟩
  · intro h
    unfold Loop.firstOp
    rw [if_pos h]
  · intro term tok conn b1 v b2 hsc hpick htop hcl hset hchk hv
    have hs2 : ¬2 ≤ a.sentCount := by omega
    simp [Loop.firstOp, hs2, hpick, htop, hcl, hset, hchk, hv]
  · intro term tok conn m hsc hpick htop hcl hset
    have hs2 : ¬2 ≤ a.sentCount := by omega
    simp [Loop.firstOp, hs2, hpick, htop, hcl, hset]
  · intro armed stack' h s hs
    unfold Loop.firstOp at h
    by_cases hs2 : 2 ≤ a.sentCount
    · rw [if_pos hs2] at h
      exact absurd h (by simp)
    · rw [if_neg hs2] at h
      cases hpick : pickSentinel a with
      | none =>
        rw [hpick] at h
        dsimp only at h
        cases hsl : armSleep a.sleepArg with
        | error m => rw [hsl] at h; exact absurd h (by simp)
        | ok sl =>
          rw [hsl] at h
          injection h with h1
          have h2 : FirstRes.suspended (sl ++ armWaits a.waits) =
              FirstRes.suspended armed := congrArg Prod.fst h1
          injection h2 with h3
          rw [← h3] at hs
          exact armed_tail_tags a sl hsl s hs
      | some pr =>
        obtain ⟨term, tok⟩ := pr
        rw [hpick] at h
        dsimp only at h
        cases htop : top? stack with
        | none => rw [htop] at h; exact absurd h (by simp)
        | some conn =>
          rw [htop] at h
          dsimp only at h
          by_cases hcl : conn.closed = true
          · rw [if_pos hcl] at h
            exact absurd h (by simp)
          · rw [if_neg hcl] at h
            cases hset : conn.buffer.set_term term with
            | error m => rw [hset] at h; exact absurd h (by simp)
            | ok b1 =>
              rw [hset] at h
              dsimp only at h
              rcases hchk : b1.check with ⟨o, b2⟩
              rw [hchk] at h
              cases o with
              | some v =>
                dsimp only at h
                by_cases hv : (!v.isEmpty) = true
                · rw [if_pos hv] at h
                  injection h with h1
                  have h2 : FirstRes.sync tok v = FirstRes.suspended armed :=
                    congrArg Prod.fst h1
                  exact absurd h2 (by simp)
                · rw [if_neg hv] at h
                  cases hsl : armSleep a.sleepArg with
                  | error m => rw [hsl] at h; exact absurd h (by simp)
                  | ok sl =>
                    rw [hsl] at h
                    injection h with h1
                    have h2 : FirstRes.suspended
                        (Armed.inputCb tok :: (sl ++ armWaits a.waits)) =
                        FirstRes.suspended armed := congrArg Prod.fst h1
                    injection h2 with h3
                    rw [← h3] at hs
                    exact armed_cons_tags a term tok hpick sl hsl s hs
              | none =>
                dsimp only at h
                cases hsl : armSleep a.sleepArg with
                | error m => rw [hsl] at h; exact absurd h (by simp)
                | ok sl =>
                  rw [hsl] at h
                  injection h with h1
                  have h2 : FirstRes.suspended
                      (Armed.inputCb tok :: (sl ++ armWaits a.waits)) =
                      FirstRes.suspended armed := congrArg Prod.fst h1
                  injection h2 with h3
                  rw [← h3] at hs
                  exact armed_cons_tags a term tok hpick sl hsl s hs

/-- Witness for C5: the synchronous-return hypotheses hold concretely
for `firstArgs0` on a stack holding `connRd` (whose buffer already
contains a CR-LF line and has no active term, so `set_term` succeeds),
and the theorem's conclusion instantiated there. -/
theorem first_sync_and_tag_encoding_witness :
    (firstArgs0.sentCount ≤ 1
      ∧ pickSentinel firstArgs0 = some (BufTerm.delim ['\r', '\n'], "until")
      ∧ top? [connRd] = some connRd
      ∧ connRd.closed = false
      ∧ connRd.buffer.set_term (BufTerm.delim ['\r', '\n'])
          = Except.ok ⟨['h', 'i', '\r', '\n'], some (BufTerm.delim ['\r', '\n'])⟩
      ∧ (Buffer.check ⟨['h', 'i', '\r', '\n'], some (BufTerm.delim ['\r', '\n'])⟩)
          = (some ['h', 'i', '\r', '\n'], ⟨[], some (BufTerm.delim ['\r', '\n'])⟩)
      ∧ (['h', 'i', '\r', '\n'] : Bytes).isEmpty = false)
    ∧ ((2 ≤ firstArgs0.sentCount →
        Loop.firstOp firstArgs0 [connRd] =
          Except.error "AssertionError: only 1 of (receive, until, until_eol) may be provided")
      ∧ (∀ term tok conn b1 v b2, firstArgs0.sentCount ≤ 1 →
          pickSentinel firstArgs0 = some (term, tok) → top? [connRd] = some conn →
          conn.closed = false →
          conn.buffer.set_term term = Except.ok b1 →
          b1.check = (some v, b2) → v.isEmpty = false →
          Loop.firstOp firstArgs0 [connRd] =
            Except.ok (FirstRes.sync tok v,
              modifyTop (fun _ => { conn with buffer := b2 }) [connRd]))
      ∧ (∀ term tok conn m, firstArgs0.sentCount ≤ 1 →
          pickSentinel firstArgs0 = some (term, tok) → top? [connRd] = some conn →
          conn.closed = false →
          conn.buffer.set_term term = Except.error m →
          Loop.firstOp firstArgs0 [connRd] = Except.error m)
      ∧ (∀ armed stack',
          Loop.firstOp firstArgs0 [connRd] = Except.ok (FirstRes.suspended armed, stack') →
          ∀ s ∈ armed, s.tag ∈ allowedTags firstArgs0)
      ∧ (∀ tag e, firstResume tag (CbIn.exc e) = FirstOutcome.raisedExc e)
      ∧ (∀ tag d, firstResume tag (CbIn.val d) = FirstOutcome.taggedPair tag d)) :=
  ⟨⟨by decide, by decide, by decide, by decide, rfl, by decide, by decide⟩,
    first_sync_and_tag_encoding firstArgs0 [connRd]⟩

end Diesel
